import Mathlib

/-!
Verification of the machineout nose plugin (`machineout.py`): a shallow
embedding of its frame-scoring heuristic, doctest-report parser and line
emitter, together with theorems checking the natural-language design
document against this embedding.

Strings are modelled as `List Char` (the inputs of interest are ASCII).
Python floats in `_calcScore` are modelled as rationals: every score is a
multiple of 1/7 with numerator in 0..7, and `float(k)/7.0` is strictly
monotone in `k` on that range, so all comparisons performed by the code
agree with the exact rational values.
-/

namespace Machineout

/-! ### String literal constants (regex fragments and message templates) -/

def sLitFile : List Char := "File \"".data
def sLitLine : List Char := "\", line ".data
def sLitIn : List Char := ", in ".data
def sLitFailedEx : List Char := "\nFailed example:\n".data
def sNL : List Char := "\n".data
def sLitExpected : List Char := "Expected:\n".data
def sLitGot : List Char := "\nGot".data
def sLitNothing : List Char := " nothing".data
def sNothing : List Char := "nothing".data
def sLitExc : List Char := "Exception raised:\n".data
def sTest : List Char := "test".data
def sAssert : List Char := "assert".data
def sError : List Char := "error".data
def sFail : List Char := "fail".data
def sNone : List Char := "None".data
def sExpectedTxt : List Char := "expected ".data
def sButGot : List Char := " but got ".data
def sButGotNothing : List Char := " but got nothing".data
def sepCS : List Char := ": ".data
def sSp : List Char := " ".data

/-! ### Generic string helpers -/

/-- Substring test: `haystack.find(pat) >= 0` in Python. -/
def containsSub : List Char → List Char → Bool
  | pat, [] => pat.isPrefixOf ([] : List Char)
  | pat, s@(_ :: t) => pat.isPrefixOf s || containsSub pat t

/-- `os.path.basename` on a POSIX path: the part after the last slash. -/
def basename (p : List Char) : List Char :=
  ((p.reverse.takeWhile (fun c => c != '/')).reverse)

/-- `int` on a nonempty string of decimal digits. -/
def natOfDigits (ds : List Char) : Nat :=
  ds.foldl (fun n c => 10 * n + (c.toNat - 48)) 0

def natToDigitsAux : Nat → Nat → List Char → List Char
  | 0, _, acc => acc
  | fuel + 1, n, acc =>
    let d := Char.ofNat (48 + n % 10)
    if n < 10 then d :: acc else natToDigitsAux fuel (n / 10) (d :: acc)

/-- Decimal rendering of a natural number (`"%d"`). -/
def natToStr (n : Nat) : List Char := natToDigitsAux (n + 1) n []

/-- Longest common prefix of two strings. -/
def commonPre : List Char → List Char → List Char
  | a :: as, b :: bs => if a = b then a :: commonPre as bs else []
  | _, _ => []

/-- `str.split('\n')`. -/
def splitNL : List Char → List (List Char)
  | [] => [[]]
  | c :: t =>
    if c = '\n' then [] :: splitNL t
    else
      match splitNL t with
      | [] => [[c]]
      | h :: r => (c :: h) :: r

/-- `'\n'.join`. -/
def joinNL (ls : List (List Char)) : List Char := List.intercalate sNL ls

/-- `str.strip('\n')`: remove leading and trailing newline characters. -/
def stripNL (l : List Char) : List Char :=
  ((l.dropWhile (fun c => c == '\n')).reverse.dropWhile (fun c => c == '\n')).reverse

/-- `lines.insert(0, lines.pop())`: move the last element to the front. -/
def moveLastToFront (l : List (List Char)) : List (List Char) :=
  match l.reverse with
  | [] => []
  | last :: restRev => last :: restRev.reverse

def isWsChar (c : Char) : Bool := c == ' ' || c == '\t'

/-- `textwrap.dedent`, step 1: lines consisting solely of blanks/tabs are
emptied (`_whitespace_only_re.sub('', text)`). -/
def blankWsLines (ls : List (List Char)) : List (List Char) :=
  ls.map (fun l => if !l.isEmpty && l.all isWsChar then [] else l)

/-- `textwrap.dedent`, step 2: the leading-whitespace runs of all lines
that contain a non-blank character (`_leading_whitespace_re.findall`). -/
def lineIndents (ls : List (List Char)) : List (List Char) :=
  ls.filterMap (fun l =>
    if l.any (fun c => !isWsChar c) then some (l.takeWhile isWsChar) else none)

/-- `textwrap.dedent`, step 3: the margin is the longest common prefix of
those indents (computed pairwise in the Python source). -/
def dedentMargin (ls : List (List Char)) : List Char :=
  match lineIndents ls with
  | [] => []
  | m :: ms => ms.foldl commonPre m

/-- `textwrap.dedent` (ASCII inputs): blank whitespace-only lines, compute
the common margin, and strip it from the start of every line carrying it. -/
def dedent (t : List Char) : List Char :=
  let ls := blankWsLines (splitNL t)
  let margin := dedentMargin ls
  joinNL (ls.map (fun l => if margin.isPrefixOf l then l.drop margin.length else l))

/-! ### Python `repr` for ASCII strings -/

def hexDigitChar (n : Nat) : Char :=
  if n < 10 then Char.ofNat (48 + n) else Char.ofNat (87 + n)

def pyQuote (s : List Char) : Char :=
  if s.contains '\'' && !(s.contains '"') then '"' else '\''

def pyEscapeChar (q c : Char) : List Char :=
  if c = '\\' then ['\\', '\\']
  else if c = q then ['\\', q]
  else if c = '\n' then ['\\', 'n']
  else if c = '\r' then ['\\', 'r']
  else if c = '\t' then ['\\', 't']
  else if c.toNat < 32 || c.toNat == 127 then
    ['\\', 'x', hexDigitChar (c.toNat / 16), hexDigitChar (c.toNat % 16)]
  else [c]

/-- `repr` of an ASCII Python string. -/
def pythonRepr (s : List Char) : List Char :=
  let q := pyQuote s
  q :: (s.flatMap (pyEscapeChar q)) ++ [q]

/-- `repr` applied to a regex group that may be `None`. -/
def reprOpt : Option (List Char) → List Char
  | none => sNone
  | some s => pythonRepr s

/-! ### `re.split('-+', err_str)` -/

def splitDashesAux : Bool → List Char → List (List Char)
  | _, [] => [[]]
  | inDash, c :: t =>
    if c = '-' then
      if inDash then splitDashesAux true t
      else [] :: splitDashesAux true t
    else
      match splitDashesAux false t with
      | [] => [[c]]
      | h :: r => (c :: h) :: r

/-- `re.split('-+', s)`: segments between maximal runs of dashes. -/
def splitDashes (s : List Char) : List (List Char) := splitDashesAux false s

/-! ### The doctest failure regex

`doctest_value_pattern`, compiled with `re.DOTALL`:

    File "([^"]*)", line (\d*), in ([^\n]*)\nFailed example:\n
    \s*([^\n]*)\n(?:(?:Expected:\n(.*)\nGot(?:(?::?\n(.*)\n)|(?: (nothing))))
    |(?:Exception raised:\n(.*)))

It is embedded as a hand-compiled backtracking matcher in continuation
passing style: each starred subexpression tries the longest capture first
and backtracks through shorter ones, exactly as the greedy Python engine
does; `\s` and `\d` are taken at their ASCII meaning. -/

structure DoctestGroups where
  fname : List Char
  linenoDigits : List Char
  funname : List Char
  exampleSrc : List Char
  expected : Option (List Char)
  got : Option (List Char)
  gotNothing : Option (List Char)
  exc : Option (List Char)
deriving DecidableEq, Repr

/-- Match a literal and return the rest of the input. -/
def lit (pre s : List Char) : Option (List Char) :=
  if pre.isPrefixOf s then some (s.drop pre.length) else none

/-- Greedy star over a character class, in CPS: try the longest capture
first, backtracking through shorter ones until the continuation succeeds. -/
def starGo {α : Type} (k : List Char → List Char → Option α)
    (run rest : List Char) : Nat → Option α
  | 0 => k [] (run ++ rest)
  | n + 1 => (k (run.take (n + 1)) (run.drop (n + 1) ++ rest)) <|> starGo k run rest n

def starBT {α : Type} (p : Char → Bool) (s : List Char)
    (k : List Char → List Char → Option α) : Option α :=
  let run := s.takeWhile p
  starGo k run (s.drop run.length) run.length

/-- Greedy `:?` in CPS. -/
def optColon {α : Type} (s : List Char) (k : List Char → Option α) : Option α :=
  match s with
  | ':' :: t => (k t) <|> (k s)
  | _ => k s

/-- ASCII `\s`. -/
def isPySpace (c : Char) : Bool :=
  c == ' ' || c == '\t' || c == '\n' || c == '\r' || c == '\x0b' || c == '\x0c'

/-- First alternative of the outcome group:
`Expected:\n(.*)\nGot(?:(?::?\n(.*)\n)|(?: (nothing)))`. -/
def altExpected (fname digits funname ex : List Char) (s : List Char) :
    Option DoctestGroups :=
  (lit sLitExpected s).bind (fun s1 =>
    starBT (fun _ => true) s1 (fun expd s2 =>
      (lit sLitGot s2).bind (fun s3 =>
        (optColon s3 (fun s4 =>
          (lit sNL s4).bind (fun s5 =>
            starBT (fun _ => true) s5 (fun gotv s6 =>
              (lit sNL s6).bind (fun _ =>
                some ⟨fname, digits, funname, ex, some expd, some gotv, none, none⟩))))) <|>
          (lit sLitNothing s3).bind (fun _ =>
            some ⟨fname, digits, funname, ex, some expd, none, some sNothing, none⟩))))

/-- Second alternative of the outcome group: `Exception raised:\n(.*)`. -/
def altException (fname digits funname ex : List Char) (s : List Char) :
    Option DoctestGroups :=
  (lit sLitExc s).bind (fun s1 =>
    starBT (fun _ => true) s1 (fun excv _ =>
      some ⟨fname, digits, funname, ex, none, none, none, some excv⟩))

/-- Attempt to match `doctest_value_pattern` at the start of `s`. -/
def matchAt (s : List Char) : Option DoctestGroups :=
  (lit sLitFile s).bind (fun s1 =>
    starBT (fun c => c != '"') s1 (fun fname s2 =>
      (lit sLitLine s2).bind (fun s3 =>
        starBT Char.isDigit s3 (fun digits s4 =>
          (lit sLitIn s4).bind (fun s5 =>
            starBT (fun c => c != '\n') s5 (fun funname s6 =>
              (lit sLitFailedEx s6).bind (fun s7 =>
                starBT isPySpace s7 (fun _ s8 =>
                  starBT (fun c => c != '\n') s8 (fun exSrc s9 =>
                    (lit sNL s9).bind (fun s10 =>
                      altExpected fname digits funname exSrc s10 <|>
                        altException fname digits funname exSrc s10))))))))))

/-- `doctest_value_pattern.search`: try the match at each start position,
left to right. -/
def searchPat : List Char → Option DoctestGroups
  | [] => matchAt []
  | c :: t => (matchAt (c :: t)) <|> searchPat t

/-! ### Building failure records (`_format_doctests` body) -/

structure FailureRecord where
  etype : List Char
  fname : List Char
  lineno : Nat
  lines : List (List Char)
deriving DecidableEq, Repr

/-- Python truthiness of a regex group: `None` and `''` are falsy. -/
def excTruthy (o : Option (List Char)) : Bool :=
  match o with
  | some s => !s.isEmpty
  | none => false

/-- Process one segment of the split report: `search`, `int(lineno)`, then
the three-way classification of the body of `_format_doctests`.  A failed
search models the `AttributeError` from `m.groups()` on `None`; empty
digits model the `ValueError` from `int('')`. -/
def recordOfPart (part : List Char) : Except Unit FailureRecord :=
  match searchPat part with
  | none => .error ()
  | some g =>
    if g.linenoDigits.isEmpty then .error ()
    else if excTruthy g.exc then
      .ok ⟨sError, g.fname, natOfDigits g.linenoDigits,
        moveLastToFront (splitNL (dedent (stripNL (g.exc.getD []))))⟩
    else if excTruthy g.gotNothing then
      .ok ⟨sFail, g.fname, natOfDigits g.linenoDigits,
        [sExpectedTxt ++ reprOpt g.expected ++ sButGotNothing]⟩
    else
      .ok ⟨sFail, g.fname, natOfDigits g.linenoDigits,
        [sExpectedTxt ++ reprOpt g.expected ++ sButGot ++ reprOpt g.got]⟩

/-- The caller (`add_formatted`) drives the `_format_doctests` generator to
completion; the first raised exception aborts the run. -/
def collectRecords : List (List Char) → Except Unit (List FailureRecord)
  | [] => .ok []
  | p :: rest =>
    match recordOfPart p with
    | .error e => .error e
    | .ok r =>
      match collectRecords rest with
      | .error e => .error e
      | .ok rs => .ok (r :: rs)

/-- `_format_doctests`: split on dash runs, drop the part before the first
run, and turn each remaining part into one record. -/
def formatDoctests (err : List Char) : Except Unit (List FailureRecord) :=
  collectRecords ((splitDashes err).drop 1)

/-! ### Frame scoring and selection -/

structure StackFrame where
  fname : List Char
  lineno : Nat
  funname : List Char
  srcline : List Char
deriving DecidableEq, Repr

/-- `_calcScore`: three weighted criteria, divided by the maximal score 7. -/
def calcScore (basepath : List Char) (f : StackFrame) : ℚ :=
  let s1 : ℚ := if basepath.isPrefixOf f.fname then 0 + 4 else 0
  let s2 : ℚ := if containsSub sTest (basename f.fname) then s1 + 2 else s1
  let s3 : ℚ := if !(sAssert.isPrefixOf f.funname) then s2 + 1 else s2
  s3 / 7

/-- The scanning loop of `_selectBestStackFrame`: strict improvement
updates the running best, and the walk terminates as soon as the running
best score reaches 1 (all criteria matched). -/
def selectLoop (basepath : List Char) (best : StackFrame) (bs : ℚ) :
    List StackFrame → StackFrame
  | [] => best
  | f :: rest =>
    if bs < calcScore basepath f then
      if (1 : ℚ) ≤ calcScore basepath f then f
      else selectLoop basepath f (calcScore basepath f) rest
    else selectLoop basepath best bs rest

/-- `_selectBestStackFrame`: running best initialised to `traceback[-1]`,
initial best score 0.  `none` on an empty traceback (Python `IndexError`). -/
def selectBestStackFrame (basepath : List Char) (tb : List StackFrame) :
    Option StackFrame :=
  match tb.getLast? with
  | none => none
  | some lastF => some (selectLoop basepath lastF 0 tb)

/-! ### The line emitter -/

/-- `_format_testfname`: strip `basepath` plus one following character when
`fname` starts with `basepath`. -/
def formatTestfname (basepath fname : List Char) : List Char :=
  if basepath.isPrefixOf fname then fname.drop (basepath.length + 1) else fname

/-- `_write_lines`: headline plus padded continuation lines. -/
def writeLines (basepath etype fname : List Char) (lineno : Nat)
    (lines : List (List Char)) : List (List Char) :=
  let fn := formatTestfname basepath fname
  let pref := fn ++ ':' :: natToStr lineno
  let first := match lines with
    | [] => []
    | l0 :: _ => [pref ++ sepCS ++ etype ++ sepCS ++ l0]
  let rest :=
    if 1 < lines.length then
      (lines.drop 1).map (fun l =>
        pref ++ sepCS ++ List.replicate (etype.length + 1) ' ' ++ sSp ++ l)
    else []
  first ++ rest

/-! ### Decidable equality for `Except` results -/

instance instExceptDecEq {e a : Type} [DecidableEq e] [DecidableEq a] :
    DecidableEq (Except e a)
  | .error x, .error y =>
    if h : x = y then .isTrue (by rw [h]) else .isFalse (by simp [h])
  | .error _, .ok _ => .isFalse (by simp)
  | .ok _, .error _ => .isFalse (by simp)
  | .ok x, .ok y =>
    if h : x = y then .isTrue (by rw [h]) else .isFalse (by simp [h])

/-! ### Concrete inputs used by the claim theorems -/

/-- The design document's sample doctest report: a preamble, a divider, a
`Got nothing` section at line 5, a divider, and an expected/got section at
line 9 (a report always ends with a newline). -/
def sampleReport : List Char :=
  "Failed doctest test for foo\n  File \"/foo.py\", line 1, in foo_fn\n-------------------------------------------------\nFile \"/foo.py\", line 5, in foo_fn\nFailed example:\n    foo_bar()\nExpected:\n    foo\nGot nothing\n-------------------------------------------------\nFile \"/foo.py\", line 9, in foo_fn\nFailed example:\n    foo_fn()\nExpected:\n    foo\nGot:\n    bar\n".data

def fooPy : List Char := "/foo.py".data
def msgNothingActual : List Char := "expected '    foo' but got nothing".data
def msgBarActual : List Char := "expected '    foo' but got '    bar'".data
def msgNothingClaim : List Char := "expected 'foo' but got nothing".data
def msgBarClaim : List Char := "expected 'foo' but got 'bar'".data

/-- What the code produces for the sample report's first section. -/
def rec1 : FailureRecord := ⟨sFail, fooPy, 5, [msgNothingActual]⟩

/-- What the code produces for the sample report's second section. -/
def rec2 : FailureRecord := ⟨sFail, fooPy, 9, [msgBarActual]⟩

/-- The record the design document claims for the first section. -/
def claimRec1 : FailureRecord := ⟨sFail, fooPy, 5, [msgNothingClaim]⟩

/-- The record the design document claims for the second section. -/
def claimRec2 : FailureRecord := ⟨sFail, fooPy, 9, [msgBarClaim]⟩

/-- A report whose single section carries a dash inside its expected
value (`a-b`); under the claimed divider-line-only splitting it has one
section. -/
def c4Report : List Char :=
  "pre\n---\nFile \"/f.py\", line 1, in g\nFailed example:\n    e()\nExpected:\n    a-b\nGot nothing\n".data

/-- The full section of `c4Report` as divider-line splitting would
delimit it. -/
def c4Section : List Char :=
  "File \"/f.py\", line 1, in g\nFailed example:\n    e()\nExpected:\n    a-b\nGot nothing\n".data

def fPy : List Char := "/f.py".data
def c4Msg : List Char := "expected '    a-b' but got nothing".data
def c4SecRec : FailureRecord := ⟨sFail, fPy, 1, [c4Msg]⟩

/-- The design document's exception example: an unindented traceback. -/
def c5part : List Char :=
  "File \"/foo.py\", line 5, in f\nFailed example:\n    g()\nException raised:\nTraceback (most recent call last):\n  ...\nNameError: x\n".data

def c5exc : List Char :=
  "Traceback (most recent call last):\n  ...\nNameError: x\n".data

def c5digits : List Char := "5".data
def c5fun : List Char := "f".data
def c5ex : List Char := "g()".data
def c5groups : DoctestGroups := ⟨fooPy, c5digits, c5fun, c5ex, none, none, none, some c5exc⟩

def lnNameErr : List Char := "NameError: x".data
def lnTraceback : List Char := "Traceback (most recent call last):".data
def lnDots : List Char := "  ...".data
def c5Rec : FailureRecord := ⟨sError, fooPy, 5, [lnNameErr, lnTraceback, lnDots]⟩

/-- An exception section with the usual 4-space doctest indentation. -/
def ce5part : List Char :=
  "File \"/f.py\", line 3, in g\nFailed example:\n    h()\nException raised:\n    Traceback (most recent call last):\n      ...\n    NameError: x\n".data

/-- The exception text of `ce5part`: everything after the line
`Exception raised:`. -/
def ce5exc : List Char :=
  "    Traceback (most recent call last):\n      ...\n    NameError: x\n".data

def ce5digits : List Char := "3".data
def ce5fun : List Char := "g".data
def ce5ex : List Char := "h()".data
def ce5groups : DoctestGroups := ⟨fPy, ce5digits, ce5fun, ce5ex, none, none, none, some ce5exc⟩
def ce5Rec : FailureRecord := ⟨sError, fPy, 3, [lnNameErr, lnTraceback, lnDots]⟩

/-- A report whose section after the divider is not in doctest layout. -/
def c7report : List Char := "x\n---\nnot a doctest section\n".data
def c7part : List Char := "\nnot a doctest section\n".data

/-- Frames realising the scores 0, 2/7 and 4/7 of the design document's
early-exit example, with project root `/proj`. -/
def cBp : List Char := "/proj".data
def fOtherA : List Char := "/other/a.py".data
def fOtherTest : List Char := "/other/test_a.py".data
def fProjA : List Char := "/proj/a.py".data
def funA : List Char := "assertA".data
def funB : List Char := "assertB".data
def funC : List Char := "assertC".data
def cF0 : StackFrame := ⟨fOtherA, 1, funA, []⟩
def cF1 : StackFrame := ⟨fOtherTest, 2, funB, []⟩
def cF2 : StackFrame := ⟨fProjA, 3, funC, []⟩

/-- Frames for the amended short-circuit: a zero-score frame, then a frame
matching all three criteria, then a further frame. -/
def wBp : List Char := "/p".data
def wQa : List Char := "/q/a.py".data
def wFunZ : List Char := "assertZ".data
def wTestX : List Char := "/p/test_x.py".data
def wFunT : List Char := "t".data
def wTestY : List Char := "/p/test_y.py".data
def wFunT2 : List Char := "t2".data
def wF0 : StackFrame := ⟨wQa, 1, wFunZ, []⟩
def wFull : StackFrame := ⟨wTestX, 1, wFunT, []⟩
def wPost : StackFrame := ⟨wTestY, 2, wFunT2, []⟩

/-- Paths for the unchecked-separator slicing behaviour. -/
def pProj : List Char := "/proj".data
def pFile : List Char := "/project/x.py".data
def ctX : List Char := "ct/x.py".data
def pR2 : List Char := "/r".data
def pR2s : List Char := "/r/s".data
def bpA : List Char := "/a".data
def fB : List Char := "/b/x.py".data

/-! ### Helper lemmas -/

theorem splitDashesAux_ne_nil (s : List Char) : ∀ b : Bool, splitDashesAux b s ≠ [] := by
  induction s with
  | nil => intro b; simp [splitDashesAux]
  | cons c t ih =>
    intro b
    by_cases hc : c = '-'
    · cases b
      · simp [splitDashesAux, hc]
      · simpa [splitDashesAux, hc] using ih true
    · cases h : splitDashesAux false t <;> simp [splitDashesAux, hc, h]

theorem splitDashesAux_dashFree (s : List Char) :
    ∀ b : Bool, ((splitDashesAux b s).all fun seg => !seg.contains '-') = true := by
  induction s with
  | nil => intro b; simp [splitDashesAux]
  | cons c t ih =>
    intro b
    by_cases hc : c = '-'
    · cases b
      · simpa [splitDashesAux, hc] using ih true
      · simpa [splitDashesAux, hc] using ih true
    · cases h : splitDashesAux false t with
      | nil =>
        simp [splitDashesAux, hc, h, List.contains_cons]
        exact fun h' => hc h'.symm
      | cons hseg rseg =>
        have hall := ih false
        rw [h] at hall
        simp at hall
        simp [splitDashesAux, hc, h]
        exact ⟨⟨fun h' => hc h'.symm, hall.1⟩, hall.2⟩

theorem collectRecords_err (x : List Char) (hx : recordOfPart x = .error ()) :
    ∀ l : List (List Char), x ∈ l → collectRecords l = .error () := by
  intro l
  induction l with
  | nil => intro h; exact absurd h (List.not_mem_nil x)
  | cons a t ih =>
    intro hmem
    rcases List.mem_cons.mp hmem with h | h
    · subst h
      simp [collectRecords, hx]
    · cases ha : recordOfPart a with
      | error e => cases e; simp [collectRecords, ha]
      | ok r => simp [collectRecords, ha, ih h]

theorem selectLoop_reaches_full (bp : List Char) (f : StackFrame)
    (hf : calcScore bp f = 1) :
    ∀ pre : List StackFrame, (∀ g ∈ pre, calcScore bp g < 1) →
      ∀ (best : StackFrame) (bs : ℚ), bs < 1 → ∀ post : List StackFrame,
        selectLoop bp best bs (pre ++ f :: post) = f := by
  intro pre
  induction pre with
  | nil =>
    intro _ best bs hbs post
    simp only [List.nil_append, selectLoop]
    rw [hf, if_pos hbs, if_pos le_rfl]
  | cons g pre ih =>
    intro hpre best bs hbs post
    have hg : calcScore bp g < 1 := hpre g (List.mem_cons_self g pre)
    have hpre' : ∀ x ∈ pre, calcScore bp x < 1 := fun x hx =>
      hpre x (List.mem_cons_of_mem g hx)
    simp only [List.cons_append, selectLoop]
    by_cases h : bs < calcScore bp g
    · rw [if_pos h, if_neg (not_le.mpr hg)]
      exact ih hpre' g (calcScore bp g) hg post
    · rw [if_neg h]
      exact ih hpre' best bs hbs post

theorem scoreCF0 : calcScore cBp cF0 = 0 := by
  have h1 : cBp.isPrefixOf cF0.fname = false := rfl
  have h2 : containsSub sTest (basename cF0.fname) = false := rfl
  have h3 : sAssert.isPrefixOf cF0.funname = true := rfl
  simp [calcScore, h1, h2, h3]

theorem scoreCF1 : calcScore cBp cF1 = 2 / 7 := by
  have h1 : cBp.isPrefixOf cF1.fname = false := rfl
  have h2 : containsSub sTest (basename cF1.fname) = true := rfl
  have h3 : sAssert.isPrefixOf cF1.funname = true := rfl
  simp [calcScore, h1, h2, h3]

theorem scoreCF2 : calcScore cBp cF2 = 4 / 7 := by
  have h1 : cBp.isPrefixOf cF2.fname = true := rfl
  have h2 : containsSub sTest (basename cF2.fname) = false := rfl
  have h3 : sAssert.isPrefixOf cF2.funname = true := rfl
  simp [calcScore, h1, h2, h3]

theorem scoreWF0 : calcScore wBp wF0 = 0 := by
  have h1 : wBp.isPrefixOf wF0.fname = false := rfl
  have h2 : containsSub sTest (basename wF0.fname) = false := rfl
  have h3 : sAssert.isPrefixOf wF0.funname = true := rfl
  simp [calcScore, h1, h2, h3]

theorem scoreWFull : calcScore wBp wFull = 1 := by
  have h1 : wBp.isPrefixOf wFull.fname = true := rfl
  have h2 : containsSub sTest (basename wFull.fname) = true := rfl
  have h3 : sAssert.isPrefixOf wFull.funname = false := rfl
  simp [calcScore, h1, h2, h3]
  norm_num

/-! ### Claim theorems -/

set_option maxRecDepth 100000

/-- C1 (counterexample): with project root `/proj`, the frames `cF0`, `cF1`,
`cF2` score 0, 2/7 and 4/7 as in the claim's scenario, yet the selector
returns `cF2` — the globally best frame — not `cF1`: the loop's short
circuit fires at score ≥ 1, never at 1/7, so the claimed early exit does
not happen. -/
theorem C1_counterexample :
    calcScore cBp cF0 = 0 ∧ calcScore cBp cF1 = 2 / 7 ∧ calcScore cBp cF2 = 4 / 7 ∧
    selectBestStackFrame cBp [cF0, cF1, cF2] = some cF2 ∧ cF2 ≠ cF1 := by
  refine ⟨scoreCF0, scoreCF1, scoreCF2, ?_, by decide⟩
  have h0 : selectBestStackFrame cBp [cF0, cF1, cF2] =
      selectLoop cBp cF2 0 [cF0, cF1, cF2] := rfl
  rw [h0]
  simp only [selectLoop, scoreCF0, scoreCF1, scoreCF2]
  norm_num

/-- C1 (amended): the selector scans frames in order with a running best
initialised to the last frame, replaces the best only on a strictly higher
score, and stops scanning as soon as a frame reaches score ≥ 1 — all seven
criterion points, not 1/7.  Consequently a frame scoring 1 after frames
scoring below 1 is returned no matter what follows it; in the claim's
0, 2/7, 4/7 example the threshold is never reached and the global maximum
`cF2` is returned. -/
theorem C1_amended (bp : List Char) (pre post : List StackFrame) (f : StackFrame)
    (hf : calcScore bp f = 1) (hpre : ∀ g ∈ pre, calcScore bp g < 1) :
    selectBestStackFrame bp (pre ++ f :: post) = some f := by
  have hne : pre ++ f :: post ≠ [] := by simp
  obtain ⟨l, hl⟩ : ∃ l, (pre ++ f :: post).getLast? = some l := by
    cases h : (pre ++ f :: post).getLast? with
    | none => exact absurd (List.getLast?_eq_none_iff.mp h) hne
    | some l => exact ⟨l, rfl⟩
  simp only [selectBestStackFrame, hl]
  exact congrArg some (selectLoop_reaches_full bp f hf pre hpre l 0 (by norm_num) post)

/-- C1 witness: a concrete zero-scoring frame followed by a frame matching
all three criteria (score 1); the selector stops there and never looks at
the frame behind it. -/
theorem C1_amended_witness :
    selectBestStackFrame wBp [wF0, wFull, wPost] = some wFull :=
  C1_amended wBp [wF0] [wPost] wFull scoreWFull (by
    intro g hg
    have : g = wF0 := by simpa using hg
    rw [this, scoreWF0]
    norm_num)

/-- C2 (counterexample): on the design document's sample report the parser
does not produce the claimed messages `expected 'foo' but got nothing` /
`expected 'foo' but got 'bar'`. -/
theorem C2_counterexample :
    formatDoctests sampleReport ≠ .ok [claimRec1, claimRec2] := by decide

/-- C2 (amended): the sample report parses to exactly two records at
`/foo.py` lines 5 and 9, but the repr-quoted values keep the captured
4-space doctest indentation: `expected '    foo' but got nothing` and
`expected '    foo' but got '    bar'` — exactly what the source's own
doctest records. -/
theorem C2_amended_parse : formatDoctests sampleReport = .ok [rec1, rec2] := by decide

/-- C3: the score of a frame is the sum of the applicable weights 4 (file
inside the project root), 2 (base name containing `test`) and 1 (function
name not starting with `assert`), divided by 7, and always lies in
`[0, 1]`. -/
theorem C3_score_formula (bp : List Char) (f : StackFrame) :
    calcScore bp f =
      ((if bp.isPrefixOf f.fname then (4 : ℚ) else 0) +
        (if containsSub sTest (basename f.fname) then (2 : ℚ) else 0) +
        (if sAssert.isPrefixOf f.funname then (0 : ℚ) else 1)) / 7 ∧
    0 ≤ calcScore bp f ∧ calcScore bp f ≤ 1 := by
  cases h1 : bp.isPrefixOf f.fname <;>
    cases h2 : containsSub sTest (basename f.fname) <;>
      cases h3 : sAssert.isPrefixOf f.funname <;>
        refine ⟨by simp [calcScore, h1, h2, h3], ?_, ?_⟩ <;>
          simp [calcScore, h1, h2, h3] <;> norm_num

/-- C4 (counterexample): `c4Report` contains one divider line and one
section, whose text holds an inner dash (`a-b`).  The split is on every
dash run, so three segments arise instead of two, the truncated segment no
longer matches the pattern, and the parse fails — even though the full
section, had it been delimited on divider lines only, parses to one
record. -/
theorem C4_counterexample :
    (splitDashes c4Report).length = 3 ∧
    formatDoctests c4Report = .error () ∧
    recordOfPart c4Section = .ok c4SecRec := by decide

/-- C4 (amended): the parser splits the report on every maximal run of one
or more dash characters anywhere in the text — not only on divider lines —
so no segment retains a dash; it discards the first segment and processes
exactly the remaining segments, one attempted record each. -/
theorem C4_amended (s : List Char) :
    ((splitDashes s).all fun seg => !seg.contains '-') = true ∧
    splitDashes s ≠ [] ∧
    formatDoctests s = collectRecords ((splitDashes s).drop 1) :=
  ⟨splitDashesAux_dashFree s false, splitDashesAux_ne_nil s false, rfl⟩

/-- C5 (counterexample): for the indented exception section `ce5part` the
parsed message lines are not the exception text split into lines with the
last moved to the front: the code first strips enclosing newlines and
dedents the common leading whitespace. -/
theorem C5_counterexample :
    searchPat ce5part = some ce5groups ∧
    ce5groups.exc = some ce5exc ∧
    recordOfPart ce5part = .ok ce5Rec ∧
    ce5Rec.lines ≠ moveLastToFront (splitNL ce5exc) := by decide

/-- C5 (amended): a section whose outcome is a raised exception yields kind
`error`, and its message lines are the captured exception text stripped of
leading/trailing newlines, dedented, split into lines, and rotated so the
last line comes first. -/
theorem C5_amended (part : List Char) (g : DoctestGroups) (e : List Char)
    (h1 : searchPat part = some g) (h2 : g.exc = some e) (h3 : e ≠ [])
    (h4 : g.linenoDigits ≠ []) :
    recordOfPart part = .ok ⟨sError, g.fname, natOfDigits g.linenoDigits,
      moveLastToFront (splitNL (dedent (stripNL e)))⟩ := by
  cases hdig : g.linenoDigits with
  | nil => exact absurd hdig h4
  | cons d ds =>
    cases he : e with
    | nil => exact absurd he h3
    | cons c cs =>
      subst he
      simp [recordOfPart, h1, hdig, h2, excTruthy]

/-- C5 witness: the design document's own unindented example, where the
dedent is the identity and the claimed reordering is exactly what comes
out. -/
theorem C5_amended_witness : recordOfPart c5part = .ok c5Rec :=
  (C5_amended c5part c5groups c5exc (by decide) (by decide) (by decide)
    (by decide)).trans (by decide)

/-- C6: a file of the form `project_root ++ "/" ++ rest` is emitted as the
project-relative `rest`, and rejoining reproduces the original path; a file
that does not start with `project_root` is left unchanged. -/
theorem C6_relativize :
    (∀ bp rest : List Char,
        formatTestfname bp (bp ++ '/' :: rest) = rest ∧
        bp ++ '/' :: formatTestfname bp (bp ++ '/' :: rest) = bp ++ '/' :: rest) ∧
    (∀ bp fname : List Char, bp.isPrefixOf fname = false →
        formatTestfname bp fname = fname) := by
  constructor
  · intro bp rest
    have hpre : bp.isPrefixOf (bp ++ '/' :: rest) = true := by
      induction bp with
      | nil => rfl
      | cons c bs ih => simp [List.isPrefixOf, ih]
    have hdrop : (bp ++ '/' :: rest).drop (bp.length + 1) = rest := by
      have hsplit : bp ++ '/' :: rest = (bp ++ ['/']) ++ rest := by simp
      have hlen : (bp ++ ['/']).length = bp.length + 1 := by simp
      rw [hsplit, ← hlen, List.drop_left]
    exact ⟨by simp [formatTestfname, hpre, hdrop],
      by simp [formatTestfname, hpre, hdrop]⟩
  · intro bp fname h
    simp [formatTestfname, h]

/-- C6 witness: `/a` ++ `/` ++ `x` relativises and rejoins, and `/b/x.py`
(not under `/a`) passes through unchanged. -/
theorem C6_relativize_witness :
    formatTestfname bpA (bpA ++ '/' :: ctX) = ctX ∧ formatTestfname bpA fB = fB :=
  ⟨(C6_relativize.1 bpA ctX).1, C6_relativize.2 bpA fB (by decide)⟩

/-- C7: if any segment after the preamble fails to match the doctest
pattern, the whole parse yields an error (the `AttributeError` raised from
`m.groups()` on `None`), propagated to the caller with no record list
produced. -/
theorem C7_parse_error (report part : List Char)
    (h1 : part ∈ (splitDashes report).drop 1) (h2 : searchPat part = none) :
    formatDoctests report = .error () := by
  have hrec : recordOfPart part = .error () := by simp [recordOfPart, h2]
  exact collectRecords_err part hrec _ h1

/-- C7 witness: a report whose only section is not in doctest layout makes
the parse fail. -/
theorem C7_parse_error_witness : formatDoctests c7report = .error () :=
  C7_parse_error c7report c7part (by decide) (by decide)

/-- C8: on a non-empty message list the emitter's first line is
`<file>:<line>: <kind>: <headline>` and every further message line is
`<file>:<line>: <padding> <line>` with `padding` one space longer than
`kind`. -/
theorem C8_emitter (bp etype fname : List Char) (lineno : Nat) (l0 : List Char)
    (rest : List (List Char)) :
    writeLines bp etype fname lineno (l0 :: rest) =
      (formatTestfname bp fname ++ ':' :: natToStr lineno ++ sepCS ++ etype ++
          sepCS ++ l0) ::
        rest.map (fun l =>
          formatTestfname bp fname ++ ':' :: natToStr lineno ++ sepCS ++
            List.replicate (etype.length + 1) ' ' ++ sSp ++ l) := by
  cases rest with
  | nil => simp [writeLines]
  | cons r rs =>
    have h : 1 < (l0 :: r :: rs).length := by
      simp [List.length_cons]
    simp [writeLines, h]

/-- C9: an empty message list produces no output lines at all. -/
theorem C9_empty_messages (bp etype fname : List Char) (lineno : Nat) :
    writeLines bp etype fname lineno [] = [] := rfl

/-- C10: whenever the file starts with the project root as a plain string
prefix, the emitter unconditionally removes `length root + 1` characters;
the root itself maps to the empty string, `/project/x.py` under root
`/proj` loses the `e` of its remainder, and rejoining no longer restores
the original path. -/
theorem C10_prefix_slice :
    (∀ bp fname : List Char, bp.isPrefixOf fname = true →
        formatTestfname bp fname = fname.drop (bp.length + 1)) ∧
    formatTestfname pProj pProj = [] ∧
    formatTestfname pProj pFile = ctX ∧
    pProj ++ '/' :: ctX ≠ pFile :=
  ⟨fun bp fname h => by simp [formatTestfname, h], by decide, by decide, by decide⟩

/-- C10 witness: the general slicing rule at a concrete prefixed path. -/
theorem C10_prefix_slice_witness :
    formatTestfname pR2 pR2s = pR2s.drop (pR2.length + 1) :=
  C10_prefix_slice.1 pR2 pR2s (by decide)

end Machineout
